import Mathlib

/-!
Shallow embedding of the ImageFeed service (`src/main.py`).

The service manages feeds and image uploads: four HTTP handlers
(`create_feed`, `get_feed`, `upload_image`, `list_images`), a relational
store holding two tables (`feeds`, `images`), and a local filesystem
where uploaded bytes are written under `uploads/<feed id>/<filename>`.

Modelling choices:
- The relational store is a pair of lists of records, appended on insert
  (SQLAlchemy `db.add` + `db.commit`).  `db.query(T).filter(T.id == x).first()`
  is `List.find?` on the list.
- UUID generation (`uuid.uuid4` defaults on the `id` columns) is modelled
  by a monotone counter `nextId` in the state: each generated identifier
  is the current counter value, and the counter then increments, which
  captures global uniqueness of generated identifiers.  `str(uuid)` is
  `toString` of the counter value.
- `datetime.utcnow` is an explicit `now : Nat` argument to each handler
  that stamps a timestamp.
- The filesystem is a directory set plus an association list from path
  strings to file contents, newest write first, so `open(path, "wb")`
  followed by `write` overwrites: a read returns the newest entry.
- `HTTPException` is an explicit error value; handlers that can raise it
  return `Except`.  A handler that mutates state returns the poststate
  explicitly; raising before any mutation returns the prestate unchanged.
-/

namespace ImageFeed

/-- Row of the `feeds` table (`class Feed` in `src/main.py`). -/
structure Feed where
  id : Nat
  name : String
  description : Option String
  created_at : Nat
deriving DecidableEq, Repr

/-- Row of the `images` table (`class Image` in `src/main.py`). -/
structure Image where
  id : Nat
  feed_id : Nat
  filename : String
  path : String
  created_at : Nat
deriving DecidableEq, Repr

/-- Model of `HTTPException(status_code=..., detail=...)`. -/
structure HTTPError where
  status_code : Nat
  detail : String
deriving DecidableEq, Repr

/-- Request body of feed creation (`class FeedCreate`): `name: str`
(required, any string), `description: Optional[str] = None`. -/
structure FeedCreate where
  name : String
  description : Option String := none
deriving DecidableEq, Repr

/-- A multipart upload: the client-declared filename and the raw bytes
(`UploadFile.filename`, `await file.read()`). -/
structure UploadFile where
  filename : String
  content : String
deriving DecidableEq, Repr

/-- The JSON payload returned by `upload_image`:
`{"message": ..., "image_id": str(db_image.id)}`. -/
structure UploadResponse where
  message : String
  image_id : String
deriving DecidableEq, Repr

/-- One element of the `list_images` response:
`{"id": str(img.id), "filename": img.filename}`. -/
structure ImageSummary where
  id : String
  filename : String
deriving DecidableEq, Repr

/-- Local filesystem: directories created so far, and files as an
association list from path to content, newest write first. -/
structure FS where
  dirs : List String
  files : List (String × String)
deriving DecidableEq, Repr

/-- Reading a path returns the content of the newest write to it. -/
def FS.read (fs : FS) (p : String) : Option String :=
  (fs.files.find? (fun kv => kv.1 == p)).map (fun kv => kv.2)

/-- Model of `open(path, "wb")` followed by `write(content)`: overwrites
whatever was at that exact path. -/
def FS.write (fs : FS) (p c : String) : FS :=
  { fs with files := (p, c) :: fs.files }

/-- Model of `os.makedirs(d, exist_ok=True)`: idempotent directory
creation. -/
def FS.makedirs (fs : FS) (d : String) : FS :=
  if d ∈ fs.dirs then fs else { fs with dirs := d :: fs.dirs }

/-- Whole-system state: the two tables, the filesystem, and the
identifier supply standing for `uuid.uuid4`. -/
structure State where
  feeds : List Feed
  images : List Image
  fs : FS
  nextId : Nat
deriving DecidableEq, Repr

/-- Empty store, empty disk. -/
def initState : State := ⟨[], [], ⟨[], []⟩, 0⟩

/-- Model of `db.query(Feed).filter(Feed.id == feed_id).first()`. -/
def State.findFeed (st : State) (fid : Nat) : Option Feed :=
  st.feeds.find? (fun f => f.id == fid)

/-- Handler `create_feed` (POST `/api/v1/feeds`): builds a `Feed` row
with a fresh identifier and the current time, inserts and commits it,
and returns the row. -/
def create_feed (feed : FeedCreate) (now : Nat) (st : State) : Feed × State :=
  let db_feed : Feed :=
    { id := st.nextId, name := feed.name, description := feed.description,
      created_at := now }
  (db_feed,
   { st with feeds := st.feeds ++ [db_feed], nextId := st.nextId + 1 })

/-- Handler `get_feed` (GET `/api/v1/feeds/.feed_id.`): looks the feed up
by identifier; raises 404 "Feed not found" when absent, else returns it. -/
def get_feed (feed_id : Nat) (st : State) : Except HTTPError Feed :=
  match st.findFeed feed_id with
  | none => .error ⟨404, "Feed not found"⟩
  | some feed => .ok feed

/-- The upload directory `f"uploads/.feed_id."` of a feed. -/
def uploadDir (feed_id : Nat) : String :=
  "uploads/" ++ toString feed_id

/-- The storage path `f".upload_dir./.file.filename."` of an upload. -/
def filePath (feed_id : Nat) (filename : String) : String :=
  uploadDir feed_id ++ "/" ++ filename

/-- Handler `upload_image` (POST `/api/v1/feeds/.feed_id./images`):
verifies the feed exists (404 before any side effect), creates the
upload directory, writes the file at the derived path, inserts an
`Image` row, and returns the success payload.  The poststate is returned
alongside the response; on 404 the prestate is returned unchanged. -/
def upload_image (feed_id : Nat) (file : UploadFile) (now : Nat) (st : State) :
    Except HTTPError UploadResponse × State :=
  match st.findFeed feed_id with
  | none => (.error ⟨404, "Feed not found"⟩, st)
  | some _ =>
    let upload_dir := uploadDir feed_id
    let fs1 := st.fs.makedirs upload_dir
    let file_path := filePath feed_id file.filename
    let fs2 := fs1.write file_path file.content
    let db_image : Image :=
      { id := st.nextId, feed_id := feed_id, filename := file.filename,
        path := file_path, created_at := now }
    (.ok ⟨"Image uploaded successfully", toString db_image.id⟩,
     { st with fs := fs2, images := st.images ++ [db_image],
               nextId := st.nextId + 1 })

/-- Handler `list_images` (GET `/api/v1/feeds/.feed_id./images`): all
`Image` rows whose `feed_id` matches, reduced to id and filename.  No
feed-existence check; never raises. -/
def list_images (feed_id : Nat) (st : State) : List ImageSummary :=
  (st.images.filter (fun img => img.feed_id == feed_id)).map
    (fun img => ⟨toString img.id, img.filename⟩)

/-- Poststate of an upload, for stating multi-step properties. -/
def afterUpload (feed_id : Nat) (file : UploadFile) (now : Nat) (st : State) :
    State :=
  (upload_image feed_id file now st).2

/-- States reachable from the empty store by the handlers in scope
(`get_feed` and `list_images` do not change state). -/
inductive Reachable : State → Prop
  | init : Reachable initState
  | create (feed : FeedCreate) (now : Nat) {st : State} :
      Reachable st → Reachable (create_feed feed now st).2
  | upload (feed_id : Nat) (file : UploadFile) (now : Nat) {st : State} :
      Reachable st → Reachable (afterUpload feed_id file now st)

/-- A small concrete run: create one feed, then upload one image to it.
Used to instantiate reachable-state properties. -/
def demoState : State :=
  afterUpload 0 ⟨"cat.png", "data"⟩ 1 (create_feed ⟨"Vacation", none⟩ 0 initState).2

/-- Referential integrity of the store: each image row has a `feed_id` that
names an existing feed row. -/
def imagesHaveFeeds (st : State) : Prop :=
  ∀ img ∈ st.images, ∃ f ∈ st.feeds, f.id = img.feed_id

/-- Identifier-supply invariant: every persisted feed identifier is
below the counter, so freshly generated identifiers are new. -/
def feedIdsBelow (st : State) : Prop :=
  ∀ f ∈ st.feeds, f.id < st.nextId

/-- Split a character list at `'/'` separators, accumulating the current
segment in reverse. -/
def splitSlashAux : List Char → List Char → List String
  | [], acc => [String.mk acc.reverse]
  | c :: cs, acc =>
    if c = '/' then String.mk acc.reverse :: splitSlashAux cs []
    else splitSlashAux cs (c :: acc)

/-- The `'/'`-separated segments of a path string. -/
def splitSlash (s : String) : List String := splitSlashAux s.data []

/-- Join path segments back with `'/'`. -/
def joinSlash : List String → String
  | [] => ""
  | s :: rest =>
    match rest with
    | [] => s
    | _ :: _ => s ++ "/" ++ joinSlash rest

/-- POSIX-style resolution of one path segment against a directory
stack: `""` and `"."` are no-ops, `".."` pops, anything else pushes.
Models how the operating system resolves the path handed to `open`. -/
def normStep (stack : List String) (seg : String) : List String :=
  if seg = "" ∨ seg = "." then stack
  else if seg = ".." then stack.dropLast
  else stack ++ [seg]

/-- The location a relative path string actually designates after the
operating system resolves `"."` and `".."` segments. -/
def normalizePath (p : String) : String :=
  joinSlash ((splitSlash p).foldl normStep [])

/-- Test whether the first list is an initial run of the second. -/
def listStartsWith : List Char → List Char → Bool
  | [], _ => true
  | _ :: _, [] => false
  | a :: as, b :: bs => a == b && listStartsWith as bs

/-- Whether path `p` lies inside directory `dir` (textually: `p` begins
with `dir` followed by a separator). -/
def pathInDir (dir p : String) : Bool :=
  listStartsWith (dir ++ "/").data p.data

/-! Unfolding lemmas for the handlers. -/

/-- Equation form of `create_feed`. -/
theorem create_feed_eq (feed : FeedCreate) (now : Nat) (st : State) :
    create_feed feed now st =
      (⟨st.nextId, feed.name, feed.description, now⟩,
       { st with
           feeds := st.feeds ++ [⟨st.nextId, feed.name, feed.description, now⟩],
           nextId := st.nextId + 1 }) := rfl

/-- When the feed is absent, `upload_image` raises 404 and returns the
prestate unchanged. -/
theorem upload_image_none {st : State} {feed_id : Nat}
    (file : UploadFile) (now : Nat) (h : st.findFeed feed_id = none) :
    upload_image feed_id file now st = (.error ⟨404, "Feed not found"⟩, st) := by
  unfold upload_image
  rw [h]

/-- When the feed is present, `upload_image` writes the file, inserts
the image row, and reports success. -/
theorem upload_image_some {st : State} {feed_id : Nat} {feed : Feed}
    (file : UploadFile) (now : Nat) (h : st.findFeed feed_id = some feed) :
    upload_image feed_id file now st =
      (.ok ⟨"Image uploaded successfully", toString st.nextId⟩,
       { st with
           fs := (st.fs.makedirs (uploadDir feed_id)).write
             (filePath feed_id file.filename) file.content,
           images := st.images ++
             [⟨st.nextId, feed_id, file.filename,
               filePath feed_id file.filename, now⟩],
           nextId := st.nextId + 1 }) := by
  unfold upload_image
  rw [h]

/-- Uploading never changes the feeds table. -/
theorem upload_feeds (feed_id : Nat) (file : UploadFile) (now : Nat)
    (st : State) : (upload_image feed_id file now st).2.feeds = st.feeds := by
  unfold upload_image
  cases st.findFeed feed_id <;> rfl

/-- The identifier supply never decreases across an upload. -/
theorem upload_nextId_le (feed_id : Nat) (file : UploadFile) (now : Nat)
    (st : State) : st.nextId ≤ (upload_image feed_id file now st).2.nextId := by
  unfold upload_image
  cases st.findFeed feed_id
  · exact Nat.le_refl _
  · exact Nat.le_succ _

/-- The lookup only depends on the feeds table. -/
theorem findFeed_congr {st st' : State} (fid : Nat)
    (h : st'.feeds = st.feeds) : st'.findFeed fid = st.findFeed fid := by
  unfold State.findFeed
  rw [h]

/-- Absence of a feed identifier, phrased over the table. -/
theorem findFeed_eq_none_iff (st : State) (fid : Nat) :
    st.findFeed fid = none ↔ ∀ f ∈ st.feeds, f.id ≠ fid := by
  unfold State.findFeed
  rw [List.find?_eq_none]
  simp

/-- A successful lookup returns a member row with the requested id. -/
theorem findFeed_some {st : State} {fid : Nat} {f : Feed}
    (h : st.findFeed fid = some f) : f ∈ st.feeds ∧ f.id = fid := by
  unfold State.findFeed at h
  refine ⟨List.mem_of_find?_eq_some h, ?_⟩
  have := List.find?_some h
  simpa using this

/-- Reading back the path just written returns the new content. -/
theorem FS.read_write_self (fs : FS) (p c : String) :
    (fs.write p c).read p = some c := by
  unfold FS.read FS.write
  simp

/-! Invariants of reachable states. -/

/-- Every reachable state keeps all persisted feed identifiers below the
identifier supply, so generated identifiers are fresh. -/
theorem reachable_feedIdsBelow {st : State} (h : Reachable st) :
    feedIdsBelow st := by
  induction h with
  | init => intro f hf; simp [initState] at hf
  | create feed now hst ih =>
    intro f hf
    rw [create_feed_eq] at hf ⊢
    simp only [List.mem_append, List.mem_singleton] at hf
    rcases hf with hf | rfl
    · exact Nat.lt_succ_of_lt (ih f hf)
    · exact Nat.lt_succ_self _
  | upload fid file now hst ih =>
    intro f hf
    rw [afterUpload, upload_feeds] at hf
    exact Nat.lt_of_lt_of_le (ih f hf) (upload_nextId_le fid file now _)

/-- Every reachable state satisfies referential integrity: each image
row points at an existing feed row. -/
theorem reachable_imagesHaveFeeds {st : State} (h : Reachable st) :
    imagesHaveFeeds st := by
  induction h with
  | init => intro img himg; simp [initState] at himg
  | create feed now hst ih =>
    intro img himg
    rw [create_feed_eq] at himg ⊢
    obtain ⟨f, hf, hid⟩ := ih img himg
    exact ⟨f, List.mem_append_left _ hf, hid⟩
  | upload fid file now hst ih =>
    intro img himg
    rw [afterUpload] at himg ⊢
    rw [upload_feeds]
    cases hfind : State.findFeed _ fid with
    | none =>
      rw [upload_image_none file now hfind] at himg
      exact ih img himg
    | some feed =>
      rw [upload_image_some file now hfind] at himg
      simp only [List.mem_append, List.mem_singleton] at himg
      rcases himg with himg | rfl
      · exact ih img himg
      · obtain ⟨hmem, hid⟩ := findFeed_some hfind
        exact ⟨feed, hmem, hid⟩

/-! Claim theorems. -/

/-- C1: an image upload whose feed identifier does not resolve to an
existing Feed returns the 404 "Feed not found" error and leaves the
state unchanged: no filesystem write happens and no Image record is
created. -/
theorem upload_missing_feed_404_state_unchanged
    (feed_id : Nat) (file : UploadFile) (now : Nat) (st : State)
    (h : st.findFeed feed_id = none) :
    upload_image feed_id file now st = (.error ⟨404, "Feed not found"⟩, st) ∧
    (upload_image feed_id file now st).2.fs = st.fs ∧
    (upload_image feed_id file now st).2.images = st.images := by
  rw [upload_image_none file now h]
  exact ⟨rfl, rfl, rfl⟩

/-- C1 witness: concrete run on the empty store. -/
theorem upload_missing_feed_404_state_unchanged_witness :
    initState.findFeed 0 = none ∧
    (upload_image 0 ⟨"cat.png", "data"⟩ 7 initState =
        (.error ⟨404, "Feed not found"⟩, initState) ∧
      (upload_image 0 ⟨"cat.png", "data"⟩ 7 initState).2.fs = initState.fs ∧
      (upload_image 0 ⟨"cat.png", "data"⟩ 7 initState).2.images =
        initState.images) :=
  ⟨rfl, upload_missing_feed_404_state_unchanged 0 ⟨"cat.png", "data"⟩ 7
    initState rfl⟩

/-- C3: feed retrieval fails with the 404 "Feed not found" error exactly
when no Feed with the requested identifier exists, and returns the found
Feed row otherwise. -/
theorem get_feed_404_iff_absent (fid : Nat) (st : State) :
    (get_feed fid st = .error ⟨404, "Feed not found"⟩ ↔
      ¬ ∃ f ∈ st.feeds, f.id = fid) ∧
    (∀ f, st.findFeed fid = some f →
      get_feed fid st = .ok f ∧ f ∈ st.feeds ∧ f.id = fid) ∧
    ((∃ f ∈ st.feeds, f.id = fid) →
      ∃ f, get_feed fid st = .ok f ∧ f ∈ st.feeds ∧ f.id = fid) := by
  refine ⟨?_, ?_, ?_⟩
  · unfold get_feed
    cases hfind : st.findFeed fid with
    | none =>
      rw [findFeed_eq_none_iff] at hfind
      constructor
      · rintro - ⟨f, hf, hid⟩
        exact hfind f hf hid
      · intro _
        rfl
    | some f =>
      constructor
      · intro hcontra
        exact absurd hcontra (by simp)
      · intro hne
        obtain ⟨hmem, hid⟩ := findFeed_some hfind
        exact absurd ⟨f, hmem, hid⟩ hne
  · intro f hfind
    obtain ⟨hmem, hid⟩ := findFeed_some hfind
    refine ⟨?_, hmem, hid⟩
    unfold get_feed
    rw [hfind]
  · intro hex
    cases hfind : st.findFeed fid with
    | none =>
      rw [findFeed_eq_none_iff] at hfind
      obtain ⟨f, hf, hid⟩ := hex
      exact absurd hid (hfind f hf)
    | some f =>
      obtain ⟨hmem, hid⟩ := findFeed_some hfind
      refine ⟨f, ?_, hmem, hid⟩
      unfold get_feed
      rw [hfind]

/-- C3 witness: instantiated at a store holding one feed. -/
theorem get_feed_404_iff_absent_witness :
    (get_feed 1 (create_feed ⟨"A", none⟩ 0 initState).2 =
        .error ⟨404, "Feed not found"⟩ ↔
      ¬ ∃ f ∈ (create_feed ⟨"A", none⟩ 0 initState).2.feeds, f.id = 1) ∧
    (∀ f, (create_feed ⟨"A", none⟩ 0 initState).2.findFeed 1 = some f →
      get_feed 1 (create_feed ⟨"A", none⟩ 0 initState).2 = .ok f ∧
        f ∈ (create_feed ⟨"A", none⟩ 0 initState).2.feeds ∧ f.id = 1) ∧
    ((∃ f ∈ (create_feed ⟨"A", none⟩ 0 initState).2.feeds, f.id = 1) →
      ∃ f, get_feed 1 (create_feed ⟨"A", none⟩ 0 initState).2 = .ok f ∧
        f ∈ (create_feed ⟨"A", none⟩ 0 initState).2.feeds ∧ f.id = 1) :=
  get_feed_404_iff_absent 1 (create_feed ⟨"A", none⟩ 0 initState).2

/-- C4: listing images for a feed identifier that does not resolve to
any existing Feed returns the empty list (the handler performs no feed
existence check and cannot fail); this holds in every reachable state. -/
theorem list_images_unknown_feed_empty (st : State) (fid : Nat)
    (hr : Reachable st) (h : st.findFeed fid = none) :
    list_images fid st = [] := by
  have inv := reachable_imagesHaveFeeds hr
  unfold list_images
  have hfil : st.images.filter (fun img => img.feed_id == fid) = [] := by
    rw [List.filter_eq_nil_iff]
    intro img himg
    obtain ⟨f, hf, hid⟩ := inv img himg
    rw [findFeed_eq_none_iff] at h
    have : img.feed_id ≠ fid := fun hc => h f hf (hid.trans hc)
    simpa using this
  rw [hfil]
  rfl

/-- C4 witness: the empty store has no feed 0 and lists no images. -/
theorem list_images_unknown_feed_empty_witness :
    initState.findFeed 0 = none ∧ list_images 0 initState = [] :=
  ⟨rfl, list_images_unknown_feed_empty initState 0 Reachable.init rfl⟩

/-- C5: uploading "cat.png" to an existing feed that has no images
returns the success payload carrying the generated image identifier, and
the subsequent listing holds exactly one entry: that identifier paired
with the filename "cat.png". -/
theorem upload_catpng_then_list_single (st : State) (fid : Nat) (feed : Feed)
    (content : String) (now : Nat)
    (h : st.findFeed fid = some feed) (hempty : list_images fid st = []) :
    (upload_image fid ⟨"cat.png", content⟩ now st).1 =
      .ok ⟨"Image uploaded successfully", toString st.nextId⟩ ∧
    list_images fid (afterUpload fid ⟨"cat.png", content⟩ now st) =
      [⟨toString st.nextId, "cat.png"⟩] := by
  have hfil : st.images.filter (fun img => img.feed_id == fid) = [] := by
    have := hempty
    unfold list_images at this
    exact List.map_eq_nil_iff.mp this
  constructor
  · rw [upload_image_some ⟨"cat.png", content⟩ now h]
  · rw [afterUpload, upload_image_some ⟨"cat.png", content⟩ now h]
    unfold list_images
    simp only [List.filter_append, hfil, List.nil_append]
    simp [List.filter]

/-- C5 witness: concrete run on a store holding one fresh feed. -/
theorem upload_catpng_then_list_single_witness :
    (create_feed ⟨"Vacation", none⟩ 0 initState).2.findFeed 0 =
      some ⟨0, "Vacation", none, 0⟩ ∧
    list_images 0 (create_feed ⟨"Vacation", none⟩ 0 initState).2 = [] ∧
    ((upload_image 0 ⟨"cat.png", "data"⟩ 1
        (create_feed ⟨"Vacation", none⟩ 0 initState).2).1 =
      .ok ⟨"Image uploaded successfully",
        toString (create_feed ⟨"Vacation", none⟩ 0 initState).2.nextId⟩ ∧
    list_images 0 (afterUpload 0 ⟨"cat.png", "data"⟩ 1
        (create_feed ⟨"Vacation", none⟩ 0 initState).2) =
      [⟨toString (create_feed ⟨"Vacation", none⟩ 0 initState).2.nextId,
        "cat.png"⟩]) :=
  ⟨rfl, rfl, upload_catpng_then_list_single
    (create_feed ⟨"Vacation", none⟩ 0 initState).2 0
    ⟨0, "Vacation", none, 0⟩ "data" 1 rfl rfl⟩

/-- C6: creating a feed named "Vacation" with no description returns a
row with that name, a null description, a timestamp at or after the
request time, and an identifier distinct from every persisted feed
identifier, and persists exactly that row. -/
theorem create_vacation_feed_fresh (st : State) (now reqTime : Nat)
    (hr : Reachable st) (ht : reqTime ≤ now) :
    (create_feed ⟨"Vacation", none⟩ now st).1.name = "Vacation" ∧
    (create_feed ⟨"Vacation", none⟩ now st).1.description = none ∧
    reqTime ≤ (create_feed ⟨"Vacation", none⟩ now st).1.created_at ∧
    (∀ f ∈ st.feeds, f.id ≠ (create_feed ⟨"Vacation", none⟩ now st).1.id) ∧
    (create_feed ⟨"Vacation", none⟩ now st).2.feeds =
      st.feeds ++ [(create_feed ⟨"Vacation", none⟩ now st).1] := by
  refine ⟨rfl, rfl, ht, ?_, rfl⟩
  intro f hf
  exact Nat.ne_of_lt (reachable_feedIdsBelow hr f hf)

/-- C6 witness: concrete creation on the empty store. -/
theorem create_vacation_feed_fresh_witness :
    (3 ≤ 5 ∧
      (create_feed ⟨"Vacation", none⟩ 5 initState).1.name = "Vacation" ∧
      (create_feed ⟨"Vacation", none⟩ 5 initState).1.description = none ∧
      3 ≤ (create_feed ⟨"Vacation", none⟩ 5 initState).1.created_at ∧
      (∀ f ∈ initState.feeds,
        f.id ≠ (create_feed ⟨"Vacation", none⟩ 5 initState).1.id) ∧
      (create_feed ⟨"Vacation", none⟩ 5 initState).2.feeds =
        initState.feeds ++ [(create_feed ⟨"Vacation", none⟩ 5 initState).1]) :=
  ⟨by decide,
    (create_vacation_feed_fresh initState 5 3 Reachable.init (by decide)).1,
    (create_vacation_feed_fresh initState 5 3 Reachable.init (by decide)).2.1,
    (create_vacation_feed_fresh initState 5 3 Reachable.init (by decide)).2.2.1,
    (create_vacation_feed_fresh initState 5 3 Reachable.init (by decide)).2.2.2.1,
    (create_vacation_feed_fresh initState 5 3 Reachable.init (by decide)).2.2.2.2⟩

/-- C7: retrieving a feed by the identifier returned from its creation,
immediately after creating it, returns exactly the created row, whose
name and description equal the request fields byte for byte. -/
theorem create_then_get_roundtrip (st : State) (feed : FeedCreate) (now : Nat)
    (hr : Reachable st) :
    get_feed (create_feed feed now st).1.id (create_feed feed now st).2 =
      .ok (create_feed feed now st).1 ∧
    (create_feed feed now st).1.name = feed.name ∧
    (create_feed feed now st).1.description = feed.description := by
  refine ⟨?_, rfl, rfl⟩
  have hbelow := reachable_feedIdsBelow hr
  rw [create_feed_eq]
  unfold get_feed State.findFeed
  have hnone : st.feeds.find? (fun f => f.id == st.nextId) = none := by
    rw [List.find?_eq_none]
    intro f hf
    simpa using Nat.ne_of_lt (hbelow f hf)
  rw [List.find?_append, hnone]
  simp

/-- C7 witness: create on the empty store, then retrieve. -/
theorem create_then_get_roundtrip_witness :
    get_feed (create_feed ⟨"Vacation", some "x"⟩ 4 initState).1.id
        (create_feed ⟨"Vacation", some "x"⟩ 4 initState).2 =
      .ok (create_feed ⟨"Vacation", some "x"⟩ 4 initState).1 ∧
    (create_feed ⟨"Vacation", some "x"⟩ 4 initState).1.name = "Vacation" ∧
    (create_feed ⟨"Vacation", some "x"⟩ 4 initState).1.description =
      some "x" :=
  create_then_get_roundtrip initState ⟨"Vacation", some "x"⟩ 4 Reachable.init

/-- C8: in every reachable state, the feed reference of each Image record
names an existing Feed: the upload handler checks feed existence before
persisting, and no operation in scope deletes or updates feeds, so the
feed present at upload time is still present. -/
theorem images_reference_existing_feeds (st : State) (hr : Reachable st) :
    imagesHaveFeeds st :=
  reachable_imagesHaveFeeds hr

/-- C8 witness: the invariant instantiated at a concrete two-step run. -/
theorem images_reference_existing_feeds_witness : imagesHaveFeeds demoState :=
  images_reference_existing_feeds demoState
    (Reachable.upload 0 ⟨"cat.png", "data"⟩ 1
      (Reachable.create ⟨"Vacation", none⟩ 0 Reachable.init))

/-- C2: uploading two files with the same filename to the same feed in
sequence derives the same storage path both times (deterministic in feed
identifier and filename), leaves only the second content readable at
that path, yet appends two distinct Image records, both visible in the
listing. -/
theorem upload_same_filename_twice (st : State) (fid : Nat) (feed : Feed)
    (name a b : String) (now1 now2 : Nat)
    (h : st.findFeed fid = some feed) :
    (upload_image fid ⟨name, a⟩ now1 st).1 =
      .ok ⟨"Image uploaded successfully", toString st.nextId⟩ ∧
    (upload_image fid ⟨name, b⟩ now2 (afterUpload fid ⟨name, a⟩ now1 st)).1 =
      .ok ⟨"Image uploaded successfully", toString (st.nextId + 1)⟩ ∧
    (afterUpload fid ⟨name, b⟩ now2
        (afterUpload fid ⟨name, a⟩ now1 st)).fs.read (filePath fid name) =
      some b ∧
    filePath fid name = "uploads/" ++ toString fid ++ "/" ++ name ∧
    ∃ img1 img2 : Image,
      (afterUpload fid ⟨name, b⟩ now2
          (afterUpload fid ⟨name, a⟩ now1 st)).images =
        st.images ++ [img1, img2] ∧
      img1.id ≠ img2.id ∧
      img1.filename = name ∧ img2.filename = name ∧
      img1.path = filePath fid name ∧ img2.path = filePath fid name ∧
      list_images fid (afterUpload fid ⟨name, b⟩ now2
          (afterUpload fid ⟨name, a⟩ now1 st)) =
        list_images fid st ++
          [⟨toString img1.id, name⟩, ⟨toString img2.id, name⟩] := by
  have h2 : (afterUpload fid ⟨name, a⟩ now1 st).findFeed fid = some feed := by
    rw [afterUpload, findFeed_congr fid (upload_feeds fid ⟨name, a⟩ now1 st)]
    exact h
  have e1 := upload_image_some ⟨name, a⟩ now1 h
  have e2 := upload_image_some ⟨name, b⟩ now2 h2
  rw [afterUpload] at e2
  refine ⟨by rw [e1], ?_, ?_, rfl,
    ⟨st.nextId, fid, name, filePath fid name, now1⟩,
    ⟨st.nextId + 1, fid, name, filePath fid name, now2⟩,
    ?_, Nat.ne_of_lt (Nat.lt_succ_self _), rfl, rfl, rfl, rfl, ?_⟩
  · rw [afterUpload, e2, e1]
  · rw [afterUpload, afterUpload, e2, e1]
    exact FS.read_write_self _ _ _
  · rw [afterUpload, afterUpload, e2, e1]
    simp [List.append_assoc]
  · rw [afterUpload, afterUpload, e2, e1]
    unfold list_images
    simp [List.filter_append, List.filter, List.append_assoc]

/-- C2 witness: two uploads of "cat.png" to a concrete one-feed store. -/
theorem upload_same_filename_twice_witness :
    (create_feed ⟨"Vacation", none⟩ 0 initState).2.findFeed 0 =
      some ⟨0, "Vacation", none, 0⟩ ∧
    ((upload_image 0 ⟨"cat.png", "AAA"⟩ 1
        (create_feed ⟨"Vacation", none⟩ 0 initState).2).1 =
      .ok ⟨"Image uploaded successfully",
        toString (create_feed ⟨"Vacation", none⟩ 0 initState).2.nextId⟩ ∧
    (upload_image 0 ⟨"cat.png", "BBB"⟩ 2 (afterUpload 0 ⟨"cat.png", "AAA"⟩ 1
        (create_feed ⟨"Vacation", none⟩ 0 initState).2)).1 =
      .ok ⟨"Image uploaded successfully",
        toString
          ((create_feed ⟨"Vacation", none⟩ 0 initState).2.nextId + 1)⟩ ∧
    (afterUpload 0 ⟨"cat.png", "BBB"⟩ 2 (afterUpload 0 ⟨"cat.png", "AAA"⟩ 1
        (create_feed ⟨"Vacation", none⟩ 0 initState).2)).fs.read
        (filePath 0 "cat.png") = some "BBB" ∧
    filePath 0 "cat.png" = "uploads/" ++ toString 0 ++ "/" ++ "cat.png" ∧
    ∃ img1 img2 : Image,
      (afterUpload 0 ⟨"cat.png", "BBB"⟩ 2 (afterUpload 0 ⟨"cat.png", "AAA"⟩ 1
          (create_feed ⟨"Vacation", none⟩ 0 initState).2)).images =
        (create_feed ⟨"Vacation", none⟩ 0 initState).2.images ++
          [img1, img2] ∧
      img1.id ≠ img2.id ∧
      img1.filename = "cat.png" ∧ img2.filename = "cat.png" ∧
      img1.path = filePath 0 "cat.png" ∧ img2.path = filePath 0 "cat.png" ∧
      list_images 0 (afterUpload 0 ⟨"cat.png", "BBB"⟩ 2
          (afterUpload 0 ⟨"cat.png", "AAA"⟩ 1
            (create_feed ⟨"Vacation", none⟩ 0 initState).2)) =
        list_images 0 (create_feed ⟨"Vacation", none⟩ 0 initState).2 ++
          [⟨toString img1.id, "cat.png"⟩, ⟨toString img2.id, "cat.png"⟩]) :=
  ⟨rfl, upload_same_filename_twice
    (create_feed ⟨"Vacation", none⟩ 0 initState).2 0
    ⟨0, "Vacation", none, 0⟩ "cat.png" "AAA" "BBB" 1 2 rfl⟩

/-- C9 counterexample: the creation schema does not reject an empty
name; creating a feed with name "" succeeds, persists the row, and the
row is retrievable, so a request with empty name IS accepted. -/
theorem create_feed_empty_name_accepted_cex :
    (create_feed ⟨"", none⟩ 0 initState).1.name = "" ∧
    (create_feed ⟨"", none⟩ 0 initState).2.feeds = [⟨0, "", none, 0⟩] ∧
    get_feed 0 (create_feed ⟨"", none⟩ 0 initState).2 =
      .ok ⟨0, "", none, 0⟩ :=
  ⟨rfl, rfl, rfl⟩

/-- C9 (amended): the name field is required by the schema, but empty
text is accepted: a creation request with an empty name produces and
persists a Feed row whose name is the empty string. -/
theorem create_feed_accepts_empty_name (st : State) (now : Nat)
    (d : Option String) :
    (create_feed ⟨"", d⟩ now st).1.name = "" ∧
    (create_feed ⟨"", d⟩ now st).2.feeds =
      st.feeds ++ [(create_feed ⟨"", d⟩ now st).1] :=
  ⟨rfl, rfl⟩

/-- C10: a successful upload stores, both on disk and in the Image row,
exactly the concatenation "uploads/" + feed id + "/" + client filename,
with the filename used verbatim; and a filename holding ".." segments
makes the resolved write location escape the feed-scoped directory. -/
theorem upload_path_verbatim_and_traversal :
    (∀ (fid : Nat) (file : UploadFile) (now : Nat) (st : State) (feed : Feed),
      st.findFeed fid = some feed →
      (afterUpload fid file now st).images =
        st.images ++ [⟨st.nextId, fid, file.filename,
          "uploads/" ++ toString fid ++ "/" ++ file.filename, now⟩] ∧
      (afterUpload fid file now st).fs.read
        ("uploads/" ++ toString fid ++ "/" ++ file.filename) =
          some file.content) ∧
    normalizePath (filePath 0 "../secret.txt") = "uploads/secret.txt" ∧
    pathInDir (uploadDir 0) (normalizePath (filePath 0 "../secret.txt")) =
      false ∧
    pathInDir (uploadDir 0) (filePath 0 "cat.png") = true := by
  refine ⟨?_, by decide, by decide, by decide⟩
  intro fid file now st feed h
  rw [afterUpload, upload_image_some file now h]
  exact ⟨rfl, FS.read_write_self _ _ _⟩

/-- C10 witness: the upload clause instantiated at a concrete store. -/
theorem upload_path_verbatim_and_traversal_witness :
    (afterUpload 0 ⟨"cat.png", "data"⟩ 1
        (create_feed ⟨"Vacation", none⟩ 0 initState).2).images =
      (create_feed ⟨"Vacation", none⟩ 0 initState).2.images ++
        [⟨(create_feed ⟨"Vacation", none⟩ 0 initState).2.nextId, 0,
          "cat.png", "uploads/" ++ toString 0 ++ "/" ++ "cat.png", 1⟩] ∧
    (afterUpload 0 ⟨"cat.png", "data"⟩ 1
        (create_feed ⟨"Vacation", none⟩ 0 initState).2).fs.read
      ("uploads/" ++ toString 0 ++ "/" ++ "cat.png") = some "data" :=
  upload_path_verbatim_and_traversal.1 0 ⟨"cat.png", "data"⟩ 1
    (create_feed ⟨"Vacation", none⟩ 0 initState).2
    ⟨0, "Vacation", none, 0⟩ rfl

end ImageFeed
